import Mathlib

/-!
Shallow embedding of the NanoBanana PRO Obsidian plugin orchestration layer
(src/main.ts, src/quickOptionsModal.ts), together with theorems settling the
frozen claims about its specification.

The embedding translates the TypeScript source directly: the retry controller
becomes a fuel-indexed recursion mirroring the bounded for-loop, and the two
generation entry points become functions from a plugin state and a deterministic
environment (provider responses, modal results, vault contents) to a final
state plus a list of observable events (client calls, sleeps, progress updates,
notices, terminal views).
-/

namespace NanoBanana

/-- Error taxonomy of types.ts as described in the spec (types.ts itself is not
in the delivered sources; the six kinds and the field layout are taken from the
spec data model and from their uses in main.ts and progressModal.ts). -/
inductive ErrorKind where
  | INVALID_API_KEY
  | RATE_LIMIT
  | NETWORK_ERROR
  | GENERATION_FAILED
  | CONTENT_FILTERED
  | NO_CONTENT
  deriving DecidableEq, Repr

/-- The GenerationError record: kind, message, retryable flag, optional
details. Also the field layout of the GenerationErrorClass instances thrown by
provider clients (same four data fields). -/
structure GenerationError where
  type : ErrorKind
  message : String
  retryable : Bool
  details : Option String
  deriving DecidableEq, Repr

/-- A JavaScript thrown value as far as main.ts can distinguish it:
a typed GenerationErrorClass instance, some other Error instance (carrying a
message), or a non-Error value (whose String(...) rendering is kept). -/
inductive Thrown where
  | typed (e : GenerationError)
  | err (message : String)
  | other (s : String)
  deriving DecidableEq, Repr

/-- main.ts line 452: lastError = error instanceof Error ? error : new Error(String(error)).
GenerationErrorClass extends Error, so typed errors pass through unchanged. -/
def normalizeThrown : Thrown → Thrown
  | .typed e => .typed e
  | .err m => .err m
  | .other s => .err s

/-- main.ts line 454: retryable = error instanceof GenerationErrorClass && error.retryable. -/
def thrownRetryable : Thrown → Bool
  | .typed e => e.retryable
  | .err _ => false
  | .other _ => false

/-- main.ts lines 498-504: toGenerationError. A typed error has its four fields
copied into the plain record; anything else becomes GENERATION_FAILED with
retryable=false and the Error message (or String rendering). -/
def toGenerationError : Thrown → GenerationError
  | .typed e => { type := e.type, message := e.message, retryable := e.retryable, details := e.details }
  | .err m => { type := .GENERATION_FAILED, message := m, retryable := false, details := none }
  | .other s => { type := .GENERATION_FAILED, message := s, retryable := false, details := none }

/-- Outcome of one invocation of a wrapped async operation. -/
inductive OpResult (T : Type) where
  | ok (v : T)
  | fail (e : Thrown)
  deriving DecidableEq, Repr

/-- Observable trace of one executeWithRetry run: how many times the operation
was invoked, the sleeps inserted between attempts (milliseconds, in order), and
the final returned value or propagated error. -/
structure RetryTrace (T : Type) where
  attempts : Nat
  delays : List Nat
  result : Except Thrown T
  deriving Repr

/-- One iteration of the executeWithRetry loop body (main.ts lines 449-462):
on success return the value; on failure either propagate immediately (error not
retryable, or this was the last allowed attempt) or record the exponential
backoff sleep of 2 ^ attempt * 1000 ms and continue with the rest of the loop. -/
def retryStep {T : Type} (res : OpResult T) (attempt autoRetryCount : Nat)
    (rest : RetryTrace T) : RetryTrace T :=
  match res with
  | .ok v => ⟨1, [], Except.ok v⟩
  | .fail e =>
    if thrownRetryable e = false ∨ attempt = autoRetryCount then
      ⟨1, [], Except.error (normalizeThrown e)⟩
    else
      ⟨rest.attempts + 1, 2 ^ attempt * 1000 :: rest.delays, rest.result⟩

/-- main.ts lines 443-466, the bounded for-loop of executeWithRetry. The fuel
argument counts the loop iterations that remain (the source loop runs
attempt = 0..autoRetryCount); the fuel-exhausted case is the dead fallback line
465. The operation is indexed by attempt number so the environment can vary
responses across attempts. -/
def retryFrom {T : Type} (op : Nat → OpResult T) (autoRetryCount : Nat) : Nat → Nat → RetryTrace T
  | 0, _ => ⟨0, [], Except.error (Thrown.err "Operation failed with no error details")⟩
  | fuel + 1, attempt =>
    retryStep (op attempt) attempt autoRetryCount (retryFrom op autoRetryCount fuel (attempt + 1))

/-- main.ts executeWithRetry: run the for-loop from attempt 0 with exactly
autoRetryCount + 1 iterations available. -/
def executeWithRetry {T : Type} (autoRetryCount : Nat) (op : Nat → OpResult T) : RetryTrace T :=
  retryFrom op autoRetryCount (autoRetryCount + 1) 0

theorem retryFrom_allFail {T : Type} (op : Nat → OpResult T) (ges : Nat → GenerationError)
    (hop : ∀ i, op i = OpResult.fail (Thrown.typed (ges i)))
    (hr : ∀ i, (ges i).retryable = true) :
    ∀ fuel attempt, retryFrom op (attempt + fuel) (fuel + 1) attempt =
      ⟨fuel + 1, (List.range' attempt fuel).map (fun i => 2 ^ i * 1000),
        Except.error (Thrown.typed (ges (attempt + fuel)))⟩ := by
  intro fuel
  induction fuel with
  | zero =>
    intro attempt
    simp [retryFrom, retryStep, hop, normalizeThrown]
  | succ n ih =>
    intro attempt
    have hrec := ih (attempt + 1)
    have harith : attempt + 1 + n = attempt + (n + 1) := by omega
    rw [harith] at hrec
    have hstep : retryFrom op (attempt + (n + 1)) (n + 1 + 1) attempt =
        retryStep (op attempt) attempt (attempt + (n + 1))
          (retryFrom op (attempt + (n + 1)) (n + 1) (attempt + 1)) := rfl
    have hcond : ¬(thrownRetryable (Thrown.typed (ges attempt)) = false ∨
        attempt = attempt + (n + 1)) := by
      rintro (hc | hc)
      · rw [thrownRetryable, hr attempt] at hc
        exact Bool.noConfusion hc
      · omega
    rw [hstep, hrec, hop attempt]
    simp only [retryStep, if_neg hcond]
    simp [List.range'_succ]

theorem executeWithRetry_first_fail {T : Type} (n : Nat) (op : Nat → OpResult T)
    (e : Thrown) (hop : op 0 = OpResult.fail e) (hre : thrownRetryable e = false) :
    executeWithRetry n op = ⟨1, [], Except.error (normalizeThrown e)⟩ := by
  simp [executeWithRetry, retryFrom, retryStep, hop, hre]

/-- C1: executeWithRetry with autoRetryCount = n invokes the operation exactly
n + 1 times when every attempt raises a retryable typed error, inserting a
delay of 2 ^ attemptIndex seconds (here milliseconds, factor 1000) between
consecutive attempts for attemptIndex = 0..n-1, and propagates the error of the
last attempt; a non-retryable error on the first attempt is propagated
immediately, after exactly one invocation and with no delay. -/
theorem executeWithRetry_spec {T : Type} (n : Nat) (op : Nat → OpResult T) :
    (∀ ges : Nat → GenerationError,
        (∀ i, op i = OpResult.fail (Thrown.typed (ges i))) →
        (∀ i, (ges i).retryable = true) →
        executeWithRetry n op =
          ⟨n + 1, (List.range n).map (fun i => 2 ^ i * 1000),
            Except.error (Thrown.typed (ges n))⟩) ∧
    (∀ e : Thrown, op 0 = OpResult.fail e → thrownRetryable e = false →
        executeWithRetry n op = ⟨1, [], Except.error (normalizeThrown e)⟩) := by
  constructor
  · intro ges hop hr
    have h := retryFrom_allFail op ges hop hr n 0
    rw [executeWithRetry]
    simpa [List.range_eq_range'] using h
  · intro e hop hre
    exact executeWithRetry_first_fail n op e hop hre

def rlErr : GenerationError := ⟨.RATE_LIMIT, "rate limited", true, none⟩

def badKeyErr : GenerationError := ⟨.INVALID_API_KEY, "bad key", false, none⟩

theorem executeWithRetry_spec_witness :
    executeWithRetry 2 (fun _ => OpResult.fail (T := Unit) (Thrown.typed rlErr)) =
      ⟨3, [1000, 2000], Except.error (Thrown.typed rlErr)⟩ ∧
    executeWithRetry 2 (fun _ => OpResult.fail (T := Unit) (Thrown.typed badKeyErr)) =
      ⟨1, [], Except.error (Thrown.typed badKeyErr)⟩ := by
  constructor
  · exact ((executeWithRetry_spec (T := Unit) 2 (fun _ => OpResult.fail (Thrown.typed rlErr))).1
      (fun _ => rlErr) (fun _ => rfl) (fun _ => rfl)).trans (by rfl)
  · exact ((executeWithRetry_spec (T := Unit) 2 (fun _ => OpResult.fail (Thrown.typed badKeyErr))).2
      (Thrown.typed badKeyErr) rfl rfl).trans (by rfl)

/-- The four text-generation providers of types.ts (closed union, per the
switch in getProviderApiKey and the spec data model). -/
inductive Provider where
  | openai
  | google
  | anthropic
  | xai
  deriving DecidableEq, Repr

/-- The six image styles offered by the Quick Options dropdown. -/
inductive ImageStyle where
  | infographic
  | poster
  | diagram
  | mindmap
  | timeline
  | cartoon
  deriving DecidableEq, Repr

/-- The three resolutions offered by the Quick Options dropdown. -/
inductive ImageSize where
  | s1K
  | s2K
  | s4K
  deriving DecidableEq, Repr

/-- The CartoonCuts selector: the string literals '4', '6', '8' and 'custom'. -/
inductive CartoonCuts where
  | c4
  | c6
  | c8
  | custom
  deriving DecidableEq, Repr

/-- The literal string value of a CartoonCuts selector. -/
def CartoonCuts.str : CartoonCuts → String
  | .c4 => "4"
  | .c6 => "6"
  | .c8 => "8"
  | .custom => "custom"

/-- Value of the accumulated digit characters, most significant first. -/
def digitsVal (ds : List Char) : Nat :=
  ds.foldl (fun a c => a * 10 + (c.toNat - 48)) 0

/-- JavaScript parseInt with radix 10 on the inputs this plugin feeds it:
skip leading whitespace, read an optional sign and then a maximal run of
leading decimal digits; none models NaN (no digits found). -/
def parseIntJS (s : String) : Option Int :=
  let cs := s.toList.dropWhile Char.isWhitespace
  let signAndRest : Int × List Char :=
    match cs with
    | '-' :: rest => (-1, rest)
    | '+' :: rest => (1, rest)
    | _ => (1, cs)
  let ds := signAndRest.2.takeWhile Char.isDigit
  if ds.isEmpty then none else some (signAndRest.1 * (digitsVal ds : Int))

/-- main.ts lines 433-438 getCartoonCutsNumber: the custom selector returns the
provided custom value as is; a numeric selector is parseInt-ed from its literal
string. -/
def getCartoonCutsNumber (cartoonCuts : CartoonCuts) (customCuts : Int) : Int :=
  if cartoonCuts = CartoonCuts.custom then customCuts
  else (parseIntJS cartoonCuts.str).getD 0

/-- quickOptionsModal.ts lines 171-174, the onChange handler of the Custom
Panel Count text input: numValue = parseInt(value) || 4 (NaN and 0 are falsy),
then Math.max(2, Math.min(12, numValue)) is stored. -/
def updateCustomCuts (value : String) : Int :=
  let numValue : Int :=
    match parseIntJS value with
    | none => 4
    | some 0 => 4
    | some n => n
  max 2 (min 12 numValue)

/-- Plugin settings consumed by main.ts (the fields of NanoBananaSettings that
the orchestration reads; customPromptPfx embeds the source field
customPromptPrefix). autoRetryCount is a non-negative count. -/
structure NanoBananaSettings where
  selectedProvider : Provider
  openaiApiKey : String
  googleApiKey : String
  anthropicApiKey : String
  xaiApiKey : String
  promptModel : String
  imageModel : String
  imageStyle : ImageStyle
  imageSize : ImageSize
  cartoonCuts : CartoonCuts
  customCartoonCuts : Int
  customPromptPfx : String
  attachmentFolder : String
  autoRetryCount : Nat
  preferredLanguage : String
  showProgressModal : Bool
  showPreviewBeforeGeneration : Bool
  deriving DecidableEq, Repr

/-- The string a template literal would render for the provider id. -/
def providerName : Provider → String
  | .openai => "openai"
  | .google => "google"
  | .anthropic => "anthropic"
  | .xai => "xai"

/-- main.ts lines 480-493 getProviderApiKey. -/
def getProviderApiKey (s : NanoBananaSettings) : String :=
  match s.selectedProvider with
  | .openai => s.openaiApiKey
  | .google => s.googleApiKey
  | .anthropic => s.anthropicApiKey
  | .xai => s.xaiApiKey

/-- A vault file handle: only the path is relevant to the orchestration. -/
structure TFile where
  path : String
  deriving DecidableEq, Repr

/-- The mutable plugin instance state read and written by the entry points. -/
structure PluginState where
  settings : NanoBananaSettings
  lastPrompt : String
  lastNoteFile : Option TFile
  isGenerating : Bool
  deriving DecidableEq, Repr

/-- Result record of the Quick Options modal (quickOptionsModal.ts). -/
structure QuickOptionsResult where
  confirmed : Bool
  imageStyle : ImageStyle
  imageSize : ImageSize
  cartoonCuts : CartoonCuts
  customCartoonCuts : Int
  deriving DecidableEq, Repr

/-- Result record of the preview modal (previewModal.ts contract): confirmed,
regenerate-requested, and the possibly user-edited prompt. -/
structure PreviewModalResult where
  confirmed : Bool
  regenerate : Bool
  prompt : String
  deriving DecidableEq, Repr

/-- Result of the prompt service: the generated prompt text. -/
structure PromptResult where
  prompt : String
  deriving DecidableEq, Repr

/-- Result of the image service: payload (kept opaque as a token) and MIME type. -/
structure ImageResult where
  imageData : String
  mimeType : String
  deriving DecidableEq, Repr

/-- Progress steps reported by the orchestrator. -/
inductive Step where
  | generatingPrompt
  | generatingImage
  | saving
  | embedding
  | complete
  deriving DecidableEq, Repr

/-- Arguments of one promptService.generatePrompt invocation. -/
structure PromptCallArgs where
  noteContent : String
  provider : Provider
  model : String
  apiKey : String
  deriving DecidableEq, Repr

/-- Arguments of one imageService.generateImage invocation. -/
structure ImageCallArgs where
  prompt : String
  apiKey : String
  model : String
  style : ImageStyle
  language : String
  size : ImageSize
  panelCount : Int
  deriving DecidableEq, Repr

/-- Externally observable effects of a generation session, in order. -/
inductive Event where
  | notice (msg : String)
  | progressOpen
  | progressClose
  | progress (step : Step) (pct : Nat)
  | promptCall (args : PromptCallArgs)
  | imageCall (args : ImageCallArgs)
  | sleep (ms : Nat)
  | saveCall (mimeType notePath folder : String)
  | embedCall (notePath imagePath : String)
  | showSuccess (path : String)
  | showError (e : GenerationError)
  deriving DecidableEq, Repr

/-- Whether an event is an outbound provider-client invocation. -/
def Event.isClientCall : Event → Bool
  | .promptCall _ => true
  | .imageCall _ => true
  | _ => false

/-- The percentages of the progress updates that actually fired, in order. -/
def progressPcts (evs : List Event) : List Nat :=
  evs.filterMap fun e =>
    match e with
    | .progress _ p => some p
    | _ => none

/-- The prompt argument of each image-client invocation, in order. -/
def imageCallPrompts (evs : List Event) : List String :=
  evs.filterMap fun e =>
    match e with
    | .imageCall a => some a.prompt
    | _ => none

/-- Style and panel count of each image-client invocation, in order. -/
def imageCallPanels (evs : List Event) : List (ImageStyle × Int) :=
  evs.filterMap fun e =>
    match e with
    | .imageCall a => some (a.style, a.panelCount)
    | _ => none

/-- JavaScript String.prototype.trim as the entry guard uses it: strip leading
and trailing whitespace (structural definition over the character list). -/
def jsTrim (s : String) : String :=
  ⟨((s.data.dropWhile Char.isWhitespace).reverse.dropWhile Char.isWhitespace).reverse⟩

/-- Deterministic environment a session runs against: the active note, the
modal results, the provider/storage responses (indexed by invocation count per
service within the session) and the set of vault paths resolving to a TFile. -/
structure Env where
  activeNoteFile : Option TFile
  noteContent : String
  quickOptions : QuickOptionsResult
  promptResponses : Nat → OpResult PromptResult
  previewResponses : Nat → PreviewModalResult
  imageResponses : Nat → OpResult ImageResult
  saveResponses : Nat → OpResult String
  embedResponses : Nat → OpResult Unit
  vaultTFiles : List String

/-- The event sequence an executeWithRetry-wrapped call emits: one client call
per attempt with the backoff sleeps interleaved. -/
def retryEvents (callEv : Event) (delays : List Nat) : List Event :=
  callEv :: delays.flatMap (fun d => [Event.sleep d, callEv])

/-- How one pass of the generatePoster while-loop ended, carrying the value of
this.lastPrompt at that point. -/
inductive GenOutcome where
  | success (lastPrompt : String)
  | cancelled (lastPrompt : String)
  | thrown (lastPrompt : String) (e : Thrown)
  | fuelOut (lastPrompt : String)
  deriving DecidableEq, Repr

/-- The lastPrompt value carried by an outcome. -/
def GenOutcome.lastPromptVal : GenOutcome → String
  | .success lp => lp
  | .cancelled lp => lp
  | .thrown lp _ => lp
  | .fuelOut lp => lp

/-- Terminal catch-block events of generatePoster (main.ts lines 238-245):
shown on the progress modal when one is open, otherwise as a notice. -/
def outcomeEvents (mOpen : Bool) : GenOutcome → List Event
  | .thrown _ e =>
    if mOpen then [Event.showError (toGenerationError e)]
    else [Event.notice ("generation failed: " ++ (toGenerationError e).message)]
  | _ => []

/-- main.ts lines 182-235, the tail of one loop pass after the preview gate:
image generation with retry (progress 50), save (progress 80), embed
(progress 95), completion (progress 100) and the success view or notice.
mOpen records whether a progress modal is open here. -/
def genTail (env : Env) (s : NanoBananaSettings) (finalPrompt : String)
    (selectedStyle : ImageStyle) (selectedSize : ImageSize) (selectedCartoonCuts : Int)
    (notePath : String) (mOpen : Bool) (lp : String) : List Event × GenOutcome :=
  let ev2 := if mOpen then [Event.progress Step.generatingImage 50] else []
  let ir := executeWithRetry s.autoRetryCount (fun i => env.imageResponses i)
  let iArgs : ImageCallArgs :=
    ⟨finalPrompt, s.googleApiKey, s.imageModel, selectedStyle, s.preferredLanguage,
      selectedSize, selectedCartoonCuts⟩
  let iEvs := retryEvents (Event.imageCall iArgs) ir.delays
  match ir.result with
  | .error e => (ev2 ++ iEvs, .thrown lp e)
  | .ok imageResult =>
    let ev3 := if mOpen then [Event.progress Step.saving 80] else []
    let sEv := [Event.saveCall imageResult.mimeType notePath s.attachmentFolder]
    match env.saveResponses 0 with
    | .fail e => (ev2 ++ iEvs ++ ev3 ++ sEv, .thrown lp e)
    | .ok imagePath =>
      let ev4 := if mOpen then [Event.progress Step.embedding 95] else []
      let eEv := [Event.embedCall notePath imagePath]
      match env.embedResponses 0 with
      | .fail e => (ev2 ++ iEvs ++ ev3 ++ sEv ++ ev4 ++ eEv, .thrown lp e)
      | .ok _ =>
        let ev5 := if mOpen then [Event.progress Step.complete 100] else []
        let fin := if mOpen then [Event.showSuccess imagePath]
                   else [Event.notice "knowledge poster generated successfully!"]
        (ev2 ++ iEvs ++ ev3 ++ sEv ++ ev4 ++ eEv ++ ev5 ++ fin, .success lp)

/-- main.ts lines 121-236, the while (shouldRegenerate) loop of generatePoster.
Each pass: open the progress modal if enabled, report progress 20, run the
prompt client under retry, cache this.lastPrompt with the raw prompt, apply the
custom prompt prefixing, pass the preview gate (which may cancel, request
another pass, or substitute an edited prompt) and run the tail. The fuel bounds
the number of user-requested regeneration passes; promptBase and previewBase
count prior service invocations within this session. -/
def genLoop (env : Env) (s : NanoBananaSettings) (providerKey : String)
    (selectedStyle : ImageStyle) (selectedSize : ImageSize) (selectedCartoonCuts : Int)
    (noteContent notePath : String) :
    Nat → Nat → Nat → String → List Event × GenOutcome
  | 0, _, _, lp => ([], .fuelOut lp)
  | fuel + 1, promptBase, previewBase, lp =>
    let openEvs := if s.showProgressModal then [Event.progressOpen] else []
    let mOpen := s.showProgressModal
    let ev1 := if mOpen then [Event.progress Step.generatingPrompt 20] else []
    let pr := executeWithRetry s.autoRetryCount (fun i => env.promptResponses (promptBase + i))
    let pArgs : PromptCallArgs := ⟨noteContent, s.selectedProvider, s.promptModel, providerKey⟩
    let pEvs := retryEvents (Event.promptCall pArgs) pr.delays
    let cont : List Event × GenOutcome :=
      match pr.result with
      | .error e => ([], .thrown lp e)
      | .ok promptResult =>
        let lp2 := promptResult.prompt
        let finalPrompt1 :=
          if s.customPromptPfx ≠ "" then s.customPromptPfx ++ "\n\n" ++ promptResult.prompt
          else promptResult.prompt
        if s.showPreviewBeforeGeneration then
          let closeEvs := if mOpen then [Event.progressClose] else []
          let pv := env.previewResponses previewBase
          if pv.confirmed = false then
            (closeEvs, .cancelled lp2)
          else if pv.regenerate then
            let rest := genLoop env s providerKey selectedStyle selectedSize selectedCartoonCuts
              noteContent notePath fuel (promptBase + pr.attempts) (previewBase + 1) lp2
            (closeEvs ++ rest.1, rest.2)
          else
            let reopenEvs := if s.showProgressModal then [Event.progressOpen] else []
            let tail := genTail env s pv.prompt selectedStyle selectedSize selectedCartoonCuts
              notePath s.showProgressModal lp2
            (closeEvs ++ reopenEvs ++ tail.1, tail.2)
        else
          let tail := genTail env s finalPrompt1 selectedStyle selectedSize selectedCartoonCuts
            notePath mOpen lp2
          (tail.1, tail.2)
    (openEvs ++ ev1 ++ pEvs ++ cont.1, cont.2)

/-- The state recorded at accepted entry into a fresh generation session
(main.ts lines 113-114): the single-flight flag is raised and the originating
note is cached before the session body runs. -/
def acceptedEntry (st : PluginState) (noteFile : TFile) : PluginState :=
  { st with isGenerating := true, lastNoteFile := some noteFile }

/-- main.ts lines 69-258 generatePoster: entry guards (single-flight, active
note, non-empty content, provider key, Google key, quick-options confirmation),
then the generation loop; the catch block coerces a thrown error and the
finally block lowers the single-flight flag unconditionally. Returns the final
plugin state and the observable events. -/
def generatePoster (st : PluginState) (env : Env) (fuel : Nat) : PluginState × List Event :=
  if st.isGenerating then (st, [Event.notice "Generation already in progress"])
  else
    match env.activeNoteFile with
    | none => (st, [Event.notice "Please open a note first"])
    | some noteFile =>
      if jsTrim env.noteContent = "" then
        (st, [Event.notice "Note is empty. Please add some content first."])
      else
        if getProviderApiKey st.settings = "" then
          (st, [Event.notice (providerName st.settings.selectedProvider ++
            " API key is not configured. Please check settings.")])
        else if st.settings.googleApiKey = "" then
          (st, [Event.notice "Google API key is required for image generation. Please configure it in settings."])
        else if env.quickOptions.confirmed = false then (st, [])
        else
          let selectedStyle := env.quickOptions.imageStyle
          let selectedSize := env.quickOptions.imageSize
          let selectedCartoonCuts :=
            getCartoonCutsNumber env.quickOptions.cartoonCuts env.quickOptions.customCartoonCuts
          let st1 := acceptedEntry st noteFile
          let r := genLoop env st1.settings (getProviderApiKey st.settings) selectedStyle
            selectedSize selectedCartoonCuts env.noteContent noteFile.path fuel 0 0 st1.lastPrompt
          ({ st1 with lastPrompt := r.2.lastPromptVal, isGenerating := false },
            r.1 ++ outcomeEvents st.settings.showProgressModal r.2)

/-- main.ts lines 306-395 regenerateLastPoster: fail-fast checks on the cached
prompt, the cached note reference and its resolution in the vault, then the
single-flight guard; the surviving session skips prompt generation (progress
40), runs image generation under retry, save (progress 80) and embed
(progress 95), and reports success or the coerced error; the finally block
lowers the flag. -/
def regenerateLastPoster (st : PluginState) (env : Env) : PluginState × List Event :=
  if st.lastPrompt = "" then
    (st, [Event.notice "No previous generation found. Please generate a poster first."])
  else
    match st.lastNoteFile with
    | none => (st, [Event.notice "Original note not found. Please generate a new poster."])
    | some lastNote =>
      if env.vaultTFiles.contains lastNote.path = false then
        (st, [Event.notice "Original note was moved or deleted"])
      else if st.isGenerating then (st, [Event.notice "Generation already in progress"])
      else
        let s := st.settings
        let mOpen := s.showProgressModal
        let openEvs := if mOpen then [Event.progressOpen] else []
        let ev1 := if mOpen then [Event.progress Step.generatingImage 40] else []
        let ir := executeWithRetry s.autoRetryCount (fun i => env.imageResponses i)
        let iArgs : ImageCallArgs :=
          ⟨st.lastPrompt, s.googleApiKey, s.imageModel, s.imageStyle, s.preferredLanguage,
            s.imageSize, getCartoonCutsNumber s.cartoonCuts s.customCartoonCuts⟩
        let iEvs := retryEvents (Event.imageCall iArgs) ir.delays
        let errEvs : Thrown → List Event := fun e =>
          if mOpen then [Event.showError (toGenerationError e)]
          else [Event.notice ("regeneration failed: " ++ (toGenerationError e).message)]
        let restEvs : List Event :=
          match ir.result with
          | .error e => errEvs e
          | .ok imageResult =>
            let ev2 := if mOpen then [Event.progress Step.saving 80] else []
            let sEv := [Event.saveCall imageResult.mimeType lastNote.path s.attachmentFolder]
            match env.saveResponses 0 with
            | .fail e => ev2 ++ sEv ++ errEvs e
            | .ok imagePath =>
              let ev3 := if mOpen then [Event.progress Step.embedding 95] else []
              let eEv := [Event.embedCall lastNote.path imagePath]
              match env.embedResponses 0 with
              | .fail e => ev2 ++ sEv ++ ev3 ++ eEv ++ errEvs e
              | .ok _ =>
                let fin := if mOpen then [Event.showSuccess imagePath]
                           else [Event.notice "poster regenerated successfully!"]
                ev2 ++ sEv ++ ev3 ++ eEv ++ fin
        ({ st with isGenerating := false }, openEvs ++ ev1 ++ iEvs ++ restEvs)

/-- A retry-wrapped operation that succeeds on its first attempt is invoked
once, with no backoff sleep. -/
theorem executeWithRetry_const_ok {T : Type} (n : Nat) (v : T) :
    executeWithRetry n (fun _ => OpResult.ok v) = ⟨1, [], Except.ok v⟩ := by
  simp [executeWithRetry, retryFrom, retryStep]

/-- generatePoster never changes the settings, and (from an idle state) always
returns with the single-flight flag lowered. -/
theorem generatePoster_preserves (st : PluginState) (env : Env) (fuel : Nat) :
    (generatePoster st env fuel).1.settings = st.settings ∧
    (st.isGenerating = false → (generatePoster st env fuel).1.isGenerating = false) := by
  constructor
  · unfold generatePoster
    repeat' split
    all_goals rfl
  · intro h
    unfold generatePoster
    repeat' split
    all_goals first | exact h | rfl

/-- regenerateLastPoster never changes the settings, and (from an idle state)
always returns with the single-flight flag lowered. -/
theorem regenerateLastPoster_preserves (st : PluginState) (env : Env) :
    (regenerateLastPoster st env).1.settings = st.settings ∧
    (st.isGenerating = false → (regenerateLastPoster st env).1.isGenerating = false) := by
  constructor
  · unfold regenerateLastPoster
    repeat' split
    all_goals rfl
  · intro h
    unfold regenerateLastPoster
    repeat' split
    all_goals first | exact h | rfl

/-- Every pass of the generation loop invokes the prompt client at least once. -/
theorem promptCall_mem_genLoop (env : Env) (s : NanoBananaSettings) (providerKey : String)
    (sy : ImageStyle) (sz : ImageSize) (cc : Int) (noteContent notePath : String)
    (fuel promptBase previewBase : Nat) (lp : String) :
    Event.promptCall ⟨noteContent, s.selectedProvider, s.promptModel, providerKey⟩ ∈
      (genLoop env s providerKey sy sz cc noteContent notePath
        (fuel + 1) promptBase previewBase lp).1 := by
  simp [genLoop, retryEvents]

/-- An accepted fresh-generation entry (all guards pass) always reaches the
prompt client. -/
theorem promptCall_mem_generatePoster (st : PluginState) (env : Env) (fuel : Nat) (f : TFile)
    (h : st.isGenerating = false) (hA : env.activeNoteFile = some f)
    (hC : jsTrim env.noteContent ≠ "") (hK : getProviderApiKey st.settings ≠ "")
    (hG : st.settings.googleApiKey ≠ "") (hQ : env.quickOptions.confirmed = true) :
    Event.promptCall
        ⟨env.noteContent, st.settings.selectedProvider, st.settings.promptModel,
          getProviderApiKey st.settings⟩ ∈
      (generatePoster st env (fuel + 1)).2 := by
  unfold generatePoster
  simp only [h, hA, hC, hK, hG, hQ, acceptedEntry, Bool.false_eq_true, if_false, ite_false]
  simp [h, hC, hK, hQ]
  exact Or.inl (promptCall_mem_genLoop env st.settings (getProviderApiKey st.settings)
    env.quickOptions.imageStyle env.quickOptions.imageSize
    (getCartoonCutsNumber env.quickOptions.cartoonCuts env.quickOptions.customCartoonCuts)
    env.noteContent f.path fuel 0 0 st.lastPrompt)

/-- Baseline settings used by concrete witnesses. -/
def settingsW : NanoBananaSettings :=
  { selectedProvider := .google, openaiApiKey := "", googleApiKey := "g",
    anthropicApiKey := "", xaiApiKey := "", promptModel := "pm", imageModel := "im",
    imageStyle := .diagram, imageSize := .s2K, cartoonCuts := .c4, customCartoonCuts := 4,
    customPromptPfx := "", attachmentFolder := "att", autoRetryCount := 2,
    preferredLanguage := "en", showProgressModal := true, showPreviewBeforeGeneration := false }

/-- Baseline all-successful environment used by concrete witnesses. -/
def envW : Env :=
  { activeNoteFile := some ⟨"note.md"⟩, noteContent := "hello",
    quickOptions := ⟨true, .diagram, .s2K, .c4, 4⟩,
    promptResponses := fun _ => .ok ⟨"raw prompt"⟩,
    previewResponses := fun _ => ⟨true, false, "edited"⟩,
    imageResponses := fun _ => .ok ⟨"bytes", "image/png"⟩,
    saveResponses := fun _ => .ok "att/p.png",
    embedResponses := fun _ => .ok (),
    vaultTFiles := ["note.md"] }

/-- Baseline idle plugin state used by concrete witnesses. -/
def stW : PluginState := ⟨settingsW, "", none, false⟩

/-- C2: while the single-flight flag is set, a second generation request via
either entry point is rejected with a notice, leaves the state unchanged, and
invokes no provider client. -/
theorem singleFlight_reject (st : PluginState) (env : Env) (fuel : Nat)
    (h : st.isGenerating = true) :
    generatePoster st env fuel = (st, [Event.notice "Generation already in progress"]) ∧
    (generatePoster st env fuel).2.filter Event.isClientCall = [] ∧
    (regenerateLastPoster st env).1 = st ∧
    (regenerateLastPoster st env).2.filter Event.isClientCall = [] := by
  have h1 : generatePoster st env fuel = (st, [Event.notice "Generation already in progress"]) := by
    unfold generatePoster
    simp [h]
  have h2 : (regenerateLastPoster st env).1 = st ∧
      (regenerateLastPoster st env).2.filter Event.isClientCall = [] := by
    unfold regenerateLastPoster
    repeat' split
    all_goals exact ⟨rfl, rfl⟩
  exact ⟨h1, by rw [h1]; rfl, h2.1, h2.2⟩

theorem singleFlight_reject_witness :
    (⟨settingsW, "p", some ⟨"note.md"⟩, true⟩ : PluginState).isGenerating = true ∧
    generatePoster ⟨settingsW, "p", some ⟨"note.md"⟩, true⟩ envW 3 =
      (⟨settingsW, "p", some ⟨"note.md"⟩, true⟩,
        [Event.notice "Generation already in progress"]) ∧
    (regenerateLastPoster ⟨settingsW, "p", some ⟨"note.md"⟩, true⟩ envW).2.filter
      Event.isClientCall = [] :=
  ⟨rfl, (singleFlight_reject ⟨settingsW, "p", some ⟨"note.md"⟩, true⟩ envW 3 rfl).1,
    (singleFlight_reject ⟨settingsW, "p", some ⟨"note.md"⟩, true⟩ envW 3 rfl).2.2.2⟩

/-- C4: regenerateLastPoster fails fast with a notice, unchanged state and no
provider-client call when no prompt is cached, when no note reference is
cached, or when the cached note reference no longer resolves to a vault file. -/
theorem regenerate_failFast (st : PluginState) (env : Env) :
    (st.lastPrompt = "" →
      regenerateLastPoster st env =
        (st, [Event.notice "No previous generation found. Please generate a poster first."])) ∧
    (st.lastPrompt ≠ "" → st.lastNoteFile = none →
      regenerateLastPoster st env =
        (st, [Event.notice "Original note not found. Please generate a new poster."])) ∧
    (∀ f : TFile, st.lastPrompt ≠ "" → st.lastNoteFile = some f →
      env.vaultTFiles.contains f.path = false →
      regenerateLastPoster st env =
        (st, [Event.notice "Original note was moved or deleted"])) ∧
    ((st.lastPrompt = "" ∨ st.lastNoteFile = none ∨
        (∃ f, st.lastNoteFile = some f ∧ env.vaultTFiles.contains f.path = false)) →
      (regenerateLastPoster st env).2.filter Event.isClientCall = []) := by
  have c1 : st.lastPrompt = "" →
      regenerateLastPoster st env =
        (st, [Event.notice "No previous generation found. Please generate a poster first."]) := by
    intro hp
    unfold regenerateLastPoster
    simp [hp]
  have c2 : st.lastPrompt ≠ "" → st.lastNoteFile = none →
      regenerateLastPoster st env =
        (st, [Event.notice "Original note not found. Please generate a new poster."]) := by
    intro hp hn
    unfold regenerateLastPoster
    simp [hp, hn]
  have c3 : ∀ f : TFile, st.lastPrompt ≠ "" → st.lastNoteFile = some f →
      env.vaultTFiles.contains f.path = false →
      regenerateLastPoster st env =
        (st, [Event.notice "Original note was moved or deleted"]) := by
    intro f hp hn hv
    have hv2 : f.path ∉ env.vaultTFiles := by
      intro hmem
      have hc : env.vaultTFiles.contains f.path = true := List.elem_eq_true_of_mem hmem
      rw [hc] at hv
      exact Bool.noConfusion hv
    unfold regenerateLastPoster
    simp [hp, hn, hv, hv2]
  refine ⟨c1, c2, c3, ?_⟩
  intro hcase
  rcases hcase with hp | hcase
  · rw [c1 hp]; rfl
  · by_cases hp : st.lastPrompt = ""
    · rw [c1 hp]; rfl
    · rcases hcase with hn | ⟨f, hn, hv⟩
      · rw [c2 hp hn]; rfl
      · rw [c3 f hp hn hv]; rfl

theorem regenerate_failFast_witness :
    regenerateLastPoster ⟨settingsW, "", none, false⟩ envW =
      (⟨settingsW, "", none, false⟩,
        [Event.notice "No previous generation found. Please generate a poster first."]) ∧
    regenerateLastPoster ⟨settingsW, "p", none, false⟩ envW =
      (⟨settingsW, "p", none, false⟩,
        [Event.notice "Original note not found. Please generate a new poster."]) ∧
    regenerateLastPoster ⟨settingsW, "p", some ⟨"gone.md"⟩, false⟩ envW =
      (⟨settingsW, "p", some ⟨"gone.md"⟩, false⟩,
        [Event.notice "Original note was moved or deleted"]) :=
  ⟨(regenerate_failFast ⟨settingsW, "", none, false⟩ envW).1 rfl,
    (regenerate_failFast ⟨settingsW, "p", none, false⟩ envW).2.1 (by decide) rfl,
    (regenerate_failFast ⟨settingsW, "p", some ⟨"gone.md"⟩, false⟩ envW).2.2.1
      ⟨"gone.md"⟩ (by decide) rfl (by decide)⟩

/-- C3: the single-flight flag is raised at accepted entry into a fresh
session, both entry points end every session (success, failure or early
return) with the flag lowered, and after an arbitrary first session a second
generation attempt against an environment passing the entry guards is accepted
and reaches the prompt client. -/
theorem singleFlight_lifecycle (st : PluginState) (env env2 : Env) (fuel fuel2 : Nat) (f : TFile)
    (h : st.isGenerating = false)
    (hA : env2.activeNoteFile = some f)
    (hC : jsTrim env2.noteContent ≠ "")
    (hK : getProviderApiKey st.settings ≠ "")
    (hG : st.settings.googleApiKey ≠ "")
    (hQ : env2.quickOptions.confirmed = true) :
    (∀ nf : TFile, (acceptedEntry st nf).isGenerating = true) ∧
    (generatePoster st env fuel).1.isGenerating = false ∧
    (regenerateLastPoster st env).1.isGenerating = false ∧
    Event.promptCall
        ⟨env2.noteContent, st.settings.selectedProvider, st.settings.promptModel,
          getProviderApiKey st.settings⟩ ∈
      (generatePoster (generatePoster st env fuel).1 env2 (fuel2 + 1)).2 := by
  obtain ⟨hs, hflag⟩ := generatePoster_preserves st env fuel
  refine ⟨fun nf => rfl, hflag h, (regenerateLastPoster_preserves st env).2 h, ?_⟩
  have h4 := promptCall_mem_generatePoster (generatePoster st env fuel).1 env2 fuel2 f
    (hflag h) hA hC (by rw [hs]; exact hK) (by rw [hs]; exact hG) hQ
  rw [hs] at h4
  exact h4

theorem singleFlight_lifecycle_witness :
    Event.promptCall
        ⟨envW.noteContent, stW.settings.selectedProvider, stW.settings.promptModel,
          getProviderApiKey stW.settings⟩ ∈
      (generatePoster (generatePoster stW envW 3).1 envW (3 + 1)).2 :=
  (singleFlight_lifecycle stW envW envW 3 3 ⟨"note.md"⟩ rfl rfl (by decide) (by decide)
    (by decide) rfl).2.2.2

/-- State whose regenerate path reaches the image client with an unclamped
custom panel count taken from persisted settings. -/
def stC : PluginState :=
  ⟨{ settingsW with imageStyle := .cartoon, cartoonCuts := .custom, customCartoonCuts := 15 },
    "p", some ⟨"note.md"⟩, false⟩

theorem cartoon_clamp_counterexample :
    stC.settings.imageStyle = ImageStyle.cartoon ∧
    imageCallPanels (regenerateLastPoster stC envW).2 = [(ImageStyle.cartoon, 15)] ∧
    ¬(2 ≤ (15 : Int) ∧ (15 : Int) ≤ 12) := by decide

/-- C7 (amended): the Options-surface custom input clamps every entered value
into the range 2..12 at input time, and the non-custom selectors lie in that
range; but a custom panel count taken from persisted settings is not
re-clamped, so the regenerate-last-poster path (which bypasses the Options
surface) can hand the image client a panel count outside 2..12. -/
theorem cartoon_cuts_input_clamp :
    (∀ value : String, 2 ≤ updateCustomCuts value ∧ updateCustomCuts value ≤ 12) ∧
    (∀ customCuts : Int,
      (2 ≤ getCartoonCutsNumber CartoonCuts.c4 customCuts ∧
        getCartoonCutsNumber CartoonCuts.c4 customCuts ≤ 12) ∧
      (2 ≤ getCartoonCutsNumber CartoonCuts.c6 customCuts ∧
        getCartoonCutsNumber CartoonCuts.c6 customCuts ≤ 12) ∧
      (2 ≤ getCartoonCutsNumber CartoonCuts.c8 customCuts ∧
        getCartoonCutsNumber CartoonCuts.c8 customCuts ≤ 12)) := by
  constructor
  · intro value
    unfold updateCustomCuts
    exact ⟨le_max_left _ _, max_le (by norm_num) (min_le_left _ _)⟩
  · intro customCuts
    have h4 : getCartoonCutsNumber CartoonCuts.c4 customCuts = 4 := rfl
    have h6 : getCartoonCutsNumber CartoonCuts.c6 customCuts = 6 := rfl
    have h8 : getCartoonCutsNumber CartoonCuts.c8 customCuts = 8 := rfl
    rw [h4, h6, h8]
    norm_num

/-- State exercising the missing credential check of regenerateLastPoster. -/
def stG : PluginState := ⟨{ settingsW with googleApiKey := "" }, "p", some ⟨"note.md"⟩, false⟩

theorem credentials_guard_counterexample :
    stG.settings.googleApiKey = "" ∧
    (regenerateLastPoster stG envW).2.filter Event.isClientCall =
      [Event.imageCall ⟨"p", "", "im", ImageStyle.diagram, "en", ImageSize.s2K, 4⟩] := by decide

/-- C9 (amended): the fresh-generation entry point refuses to start, with a
notice, an unchanged state and no provider-client call, when the selected
provider key is empty or the Google key is empty; the regenerate-last-poster
entry point performs no credential check at all. -/
theorem credentials_guard (st : PluginState) (env : Env) (fuel : Nat) (f : TFile)
    (h : st.isGenerating = false) (hA : env.activeNoteFile = some f)
    (hC : jsTrim env.noteContent ≠ "") :
    (getProviderApiKey st.settings = "" →
      generatePoster st env fuel =
        (st, [Event.notice (providerName st.settings.selectedProvider ++
          " API key is not configured. Please check settings.")]) ∧
      (generatePoster st env fuel).2.filter Event.isClientCall = []) ∧
    (getProviderApiKey st.settings ≠ "" → st.settings.googleApiKey = "" →
      generatePoster st env fuel =
        (st, [Event.notice "Google API key is required for image generation. Please configure it in settings."]) ∧
      (generatePoster st env fuel).2.filter Event.isClientCall = []) := by
  constructor
  · intro hk
    have he : generatePoster st env fuel =
        (st, [Event.notice (providerName st.settings.selectedProvider ++
          " API key is not configured. Please check settings.")]) := by
      unfold generatePoster
      simp [h, hA, hC, hk]
    exact ⟨he, by rw [he]; rfl⟩
  · intro hk hg
    have he : generatePoster st env fuel =
        (st, [Event.notice "Google API key is required for image generation. Please configure it in settings."]) := by
      unfold generatePoster
      simp [h, hA, hC, hk, hg]
    exact ⟨he, by rw [he]; rfl⟩

theorem credentials_guard_witness :
    (generatePoster ⟨{ settingsW with googleApiKey := "" }, "", none, false⟩ envW 3 =
      (⟨{ settingsW with googleApiKey := "" }, "", none, false⟩,
        [Event.notice "google API key is not configured. Please check settings."])) ∧
    (generatePoster
        ⟨{ settingsW with selectedProvider := .openai, openaiApiKey := "ok", googleApiKey := "" },
          "", none, false⟩ envW 3 =
      (⟨{ settingsW with selectedProvider := .openai, openaiApiKey := "ok", googleApiKey := "" },
          "", none, false⟩,
        [Event.notice "Google API key is required for image generation. Please configure it in settings."])) := by
  constructor
  · exact ((credentials_guard ⟨{ settingsW with googleApiKey := "" }, "", none, false⟩ envW 3
      ⟨"note.md"⟩ rfl rfl (by decide)).1 rfl).1.trans (by decide)
  · exact ((credentials_guard
      ⟨{ settingsW with selectedProvider := .openai, openaiApiKey := "ok", googleApiKey := "" },
        "", none, false⟩ envW 3
      ⟨"note.md"⟩ rfl rfl (by decide)).2 (by decide) rfl).1

/-- C8: getCartoonCutsNumber returns the numeric value of a non-custom selector
unchanged (4, 6, 8), and for the custom selector returns the provided custom
value exactly as given, with no re-clamping at read time. -/
theorem getCartoonCutsNumber_spec :
    (∀ customCuts : Int,
      getCartoonCutsNumber CartoonCuts.c4 customCuts = 4 ∧
      getCartoonCutsNumber CartoonCuts.c6 customCuts = 6 ∧
      getCartoonCutsNumber CartoonCuts.c8 customCuts = 8) ∧
    (∀ customCuts : Int, getCartoonCutsNumber CartoonCuts.custom customCuts = customCuts) :=
  ⟨fun _ => ⟨rfl, rfl, rfl⟩, fun _ => rfl⟩

/-- Hypotheses describing a fresh-generation session whose entry guards pass,
whose provider and storage calls all succeed on the first attempt, and whose
progress modal is enabled. -/
structure FreshRun (st : PluginState) (env : Env) (f : TFile) (pr : PromptResult)
    (ir : ImageResult) (pa : String) : Prop where
  idle : st.isGenerating = false
  active : env.activeNoteFile = some f
  content : jsTrim env.noteContent ≠ ""
  provKey : getProviderApiKey st.settings ≠ ""
  googleKey : st.settings.googleApiKey ≠ ""
  confirmed : env.quickOptions.confirmed = true
  modal : st.settings.showProgressModal = true
  prompts : env.promptResponses = fun _ => OpResult.ok pr
  images : env.imageResponses = fun _ => OpResult.ok ir
  saves : env.saveResponses = fun _ => OpResult.ok pa
  embeds : env.embedResponses = fun _ => OpResult.ok ()

/-- Hypotheses describing a regenerate-last-poster session whose fail-fast
checks pass, whose image and storage calls succeed on the first attempt, and
whose progress modal is enabled. -/
structure RegenRun (st : PluginState) (env : Env) (f : TFile)
    (ir : ImageResult) (pa : String) : Prop where
  idle : st.isGenerating = false
  hasPrompt : st.lastPrompt ≠ ""
  noteRef : st.lastNoteFile = some f
  resolves : env.vaultTFiles.contains f.path = true
  modal : st.settings.showProgressModal = true
  images : env.imageResponses = fun _ => OpResult.ok ir
  saves : env.saveResponses = fun _ => OpResult.ok pa
  embeds : env.embedResponses = fun _ => OpResult.ok ()

/-- Idle state with a cached prompt and resolvable note, for regenerate runs. -/
def stR : PluginState := ⟨settingsW, "p", some ⟨"note.md"⟩, false⟩

theorem progress_milestones_counterexample :
    progressPcts (regenerateLastPoster stR envW).2 = [40, 80, 95] ∧
    (regenerateLastPoster stR envW).2.getLast? = some (Event.showSuccess "att/p.png") ∧
    progressPcts (regenerateLastPoster stR envW).2 ≠ [40, 80, 95, 100] := by decide

/-- C5 (amended): with the progress modal enabled, a successful fresh
generation fires the progress percentages 20, 50, 80, 95, 100 in order
(whether the preview gate is disabled or confirmed without a regeneration
request), while a successful regenerate-last-poster run fires 40, 80, 95 only:
the regenerate path issues no final 100 percent update and shows the success
view directly after the 95 percent embed step. -/
theorem progress_milestones (st st2 : PluginState) (env env2 : Env) (fuel : Nat)
    (f f2 : TFile) (pr : PromptResult) (ir ir2 : ImageResult) (pa pa2 edited : String)
    (hR : FreshRun st env f pr ir pa)
    (hPrev : st.settings.showPreviewBeforeGeneration = false ∨
      env.previewResponses 0 = ⟨true, false, edited⟩)
    (hR2 : RegenRun st2 env2 f2 ir2 pa2) :
    progressPcts (generatePoster st env (fuel + 1)).2 = [20, 50, 80, 95, 100] ∧
    progressPcts (regenerateLastPoster st2 env2).2 = [40, 80, 95] := by
  obtain ⟨h1, hA, hC, hK, hG, hQ, hM, hP, hI, hS, hE⟩ := hR
  constructor
  · cases hb : st.settings.showPreviewBeforeGeneration with
    | false =>
      unfold generatePoster
      simp [h1, hA, hC, hK, hG, hQ, acceptedEntry, genLoop, genTail, hb, hM, hP, hI, hS, hE,
        executeWithRetry_const_ok, retryEvents, outcomeEvents, progressPcts]
    | true =>
      rcases hPrev with hz | hPv
      · rw [hz] at hb
        cases hb
      · unfold generatePoster
        simp [h1, hA, hC, hK, hG, hQ, acceptedEntry, genLoop, genTail, hb, hM, hP, hI, hS, hE,
          hPv, executeWithRetry_const_ok, retryEvents, outcomeEvents, progressPcts]
  · obtain ⟨h2i, h2p, h2n, h2v, h2m, h2I, h2S, h2E⟩ := hR2
    have h2v2 : f2.path ∈ env2.vaultTFiles := List.mem_of_elem_eq_true h2v
    unfold regenerateLastPoster
    simp [h2i, h2p, h2n, h2v, h2v2, h2m, h2I, h2S, h2E, executeWithRetry_const_ok, retryEvents,
      progressPcts]

theorem progress_milestones_witness :
    progressPcts (generatePoster stW envW (0 + 1)).2 = [20, 50, 80, 95, 100] ∧
    progressPcts (regenerateLastPoster stR envW).2 = [40, 80, 95] :=
  progress_milestones stW stR envW envW 0 ⟨"note.md"⟩ ⟨"note.md"⟩ ⟨"raw prompt"⟩
    ⟨"bytes", "image/png"⟩ ⟨"bytes", "image/png"⟩ "att/p.png" "att/p.png" "edited"
    ⟨rfl, rfl, by decide, by decide, by decide, rfl, rfl, rfl, rfl, rfl, rfl⟩
    (Or.inl rfl)
    ⟨rfl, by decide, rfl, rfl, rfl, rfl, rfl, rfl⟩

/-- C10: the cached last prompt is always the raw prompt-client output. A fresh
run with the preview gate enabled caches pr.prompt even though the image client
received the user-edited prompt; a fresh run without preview but with a
configured custom prompt prefixing string caches pr.prompt even though the
image client received the prefixed prompt; and a subsequent
regenerate-last-poster run sends exactly the cached raw prompt to the image
client. -/
theorem lastPrompt_cache_raw (st st2 : PluginState) (env env2 env3 : Env) (fuel fuel2 : Nat)
    (f f2 : TFile) (pr pr2 : PromptResult) (ir ir2 ir3 : ImageResult) (pa pa2 pa3 edited : String)
    (hR : FreshRun st env f pr ir pa)
    (hPrevOn : st.settings.showPreviewBeforeGeneration = true)
    (hPv : env.previewResponses 0 = ⟨true, false, edited⟩)
    (hR2 : FreshRun st2 env2 f2 pr2 ir2 pa2)
    (hPrevOff : st2.settings.showPreviewBeforeGeneration = false)
    (hPfx : st2.settings.customPromptPfx ≠ "")
    (hNE : pr.prompt ≠ "")
    (hV3 : env3.vaultTFiles.contains f.path = true)
    (hI3 : env3.imageResponses = fun _ => OpResult.ok ir3)
    (hS3 : env3.saveResponses = fun _ => OpResult.ok pa3)
    (hE3 : env3.embedResponses = fun _ => OpResult.ok ()) :
    ((generatePoster st env (fuel + 1)).1.lastPrompt = pr.prompt ∧
      imageCallPrompts (generatePoster st env (fuel + 1)).2 = [edited]) ∧
    ((generatePoster st2 env2 (fuel2 + 1)).1.lastPrompt = pr2.prompt ∧
      imageCallPrompts (generatePoster st2 env2 (fuel2 + 1)).2 =
        [st2.settings.customPromptPfx ++ "\n\n" ++ pr2.prompt]) ∧
    imageCallPrompts (regenerateLastPoster (generatePoster st env (fuel + 1)).1 env3).2 =
      [pr.prompt] := by
  obtain ⟨h1, hA, hC, hK, hG, hQ, hM, hP, hI, hS, hE⟩ := hR
  have hstate : (generatePoster st env (fuel + 1)).1 = ⟨st.settings, pr.prompt, some f, false⟩ := by
    unfold generatePoster
    simp [h1, hA, hC, hK, hG, hQ, acceptedEntry, genLoop, genTail, hPrevOn, hM, hP, hI, hS, hE,
      hPv, executeWithRetry_const_ok, retryEvents, GenOutcome.lastPromptVal]
  have hcalls1 : imageCallPrompts (generatePoster st env (fuel + 1)).2 = [edited] := by
    unfold generatePoster
    simp [h1, hA, hC, hK, hG, hQ, acceptedEntry, genLoop, genTail, hPrevOn, hM, hP, hI, hS, hE,
      hPv, executeWithRetry_const_ok, retryEvents, outcomeEvents, imageCallPrompts]
  obtain ⟨g1, gA, gC, gK, gG, gQ, gM, gP, gI, gS, gE⟩ := hR2
  have hstate2 : (generatePoster st2 env2 (fuel2 + 1)).1.lastPrompt = pr2.prompt := by
    unfold generatePoster
    simp [g1, gA, gC, gK, gG, gQ, acceptedEntry, genLoop, genTail, hPrevOff, gM, gP, gI, gS, gE,
      executeWithRetry_const_ok, retryEvents, GenOutcome.lastPromptVal]
  have hcalls2 : imageCallPrompts (generatePoster st2 env2 (fuel2 + 1)).2 =
      [st2.settings.customPromptPfx ++ "\n\n" ++ pr2.prompt] := by
    unfold generatePoster
    simp [g1, gA, gC, gK, gG, gQ, acceptedEntry, genLoop, genTail, hPrevOff, gM, gP, gI, gS, gE,
      hPfx, executeWithRetry_const_ok, retryEvents, outcomeEvents, imageCallPrompts]
  refine ⟨⟨by rw [hstate], hcalls1⟩, ⟨hstate2, hcalls2⟩, ?_⟩
  have hV3b : f.path ∈ env3.vaultTFiles := List.mem_of_elem_eq_true hV3
  rw [hstate]
  unfold regenerateLastPoster
  simp [hNE, hV3, hV3b, hM, hI3, hS3, hE3, executeWithRetry_const_ok, retryEvents,
    imageCallPrompts]

theorem lastPrompt_cache_raw_witness :
    ((generatePoster ⟨{ settingsW with showPreviewBeforeGeneration := true }, "", none, false⟩
        envW (0 + 1)).1.lastPrompt = "raw prompt" ∧
      imageCallPrompts (generatePoster
        ⟨{ settingsW with showPreviewBeforeGeneration := true }, "", none, false⟩
        envW (0 + 1)).2 = ["edited"]) ∧
    ((generatePoster ⟨{ settingsW with customPromptPfx := "PFX" }, "", none, false⟩
        envW (0 + 1)).1.lastPrompt = "raw prompt" ∧
      imageCallPrompts (generatePoster
        ⟨{ settingsW with customPromptPfx := "PFX" }, "", none, false⟩
        envW (0 + 1)).2 = ["PFX" ++ "\n\n" ++ "raw prompt"]) ∧
    imageCallPrompts (regenerateLastPoster
      (generatePoster ⟨{ settingsW with showPreviewBeforeGeneration := true }, "", none, false⟩
        envW (0 + 1)).1 envW).2 = ["raw prompt"] :=
  lastPrompt_cache_raw
    ⟨{ settingsW with showPreviewBeforeGeneration := true }, "", none, false⟩
    ⟨{ settingsW with customPromptPfx := "PFX" }, "", none, false⟩
    envW envW envW 0 0 ⟨"note.md"⟩ ⟨"note.md"⟩ ⟨"raw prompt"⟩ ⟨"raw prompt"⟩
    ⟨"bytes", "image/png"⟩ ⟨"bytes", "image/png"⟩ ⟨"bytes", "image/png"⟩
    "att/p.png" "att/p.png" "att/p.png" "edited"
    ⟨rfl, rfl, by decide, by decide, by decide, rfl, rfl, rfl, rfl, rfl, rfl⟩
    rfl rfl
    ⟨rfl, rfl, by decide, by decide, by decide, rfl, rfl, rfl, rfl, rfl, rfl⟩
    rfl (by decide) (by decide) rfl rfl rfl rfl

/-- C6: coercion of arbitrary thrown values into the closed taxonomy. A typed
GenerationError passes through with kind, message, retryable and details
unchanged; any other thrown value becomes GENERATION_FAILED with
retryable = false. -/
theorem toGenerationError_closed :
    (∀ e : GenerationError, toGenerationError (Thrown.typed e) = e) ∧
    (∀ m : String, toGenerationError (Thrown.err m) =
      ⟨ErrorKind.GENERATION_FAILED, m, false, none⟩) ∧
    (∀ s : String, toGenerationError (Thrown.other s) =
      ⟨ErrorKind.GENERATION_FAILED, s, false, none⟩) := by
  refine ⟨fun e => rfl, fun m => rfl, fun s => rfl⟩

end NanoBanana
